import Mathlib

/-!
Verification of the EcoTracker Activity-Approval-to-Reward Ledger core.

Shallow embedding of the relevant parts of the repository:
  * `activities/models.py` — `ActivitySubmission` (with `approve`), `CarbonLog`;
  * `users/models.py` — `UserProfile.update_stats`, `UserBadge` uniqueness;
  * `users/badge_service.py` — `BadgeService.check_and_award_badges` and helpers;
  * `activities/admin.py` — `reject_submissions` admin action body;
  * `dashboard/views.py` — `update_challenge_progress_api`;
  * `ai_features/models.py` — `DynamicChallenge`.

Python floats on the reward path are modelled exactly as rationals (ℚ), database
integer columns as ℤ, rows keyed by integer primary keys.  Timestamps
(`submitted_at`, `completed_at`, `earned_at`, `timestamp`) play no role in any
property considered here and are omitted from the row structures.
-/

namespace EcoTracker

/-- Python `int(x)` applied to a float/number: truncation toward zero. -/
def pyInt (x : ℚ) : ℤ := if 0 ≤ x then x.floor else x.ceil

/-- Submission review state, from `ActivitySubmission.Status`
(`activities/models.py`): PENDING / APPROVED / REJECTED. -/
inductive Status where
  | pending
  | approved
  | rejected
deriving DecidableEq, Repr

/-- One `ActivitySubmission` row (`activities/models.py`).  `activity_type` is a
`CharField` and is therefore modelled as an arbitrary string (the enumerated
codes are "TREE", "RECYCLE", "CLEANUP", "AWARENESS", "ENERGY_SAVING"). -/
structure ActivitySubmission where
  user : Nat
  activity_type : String
  quantity : ℚ
  status : Status
  points_awarded : ℤ
  carbon_saved_kg : ℚ
  feedback : String
deriving DecidableEq, Repr

/-- One `CarbonLog` row (`activities/models.py`).  `submission` is a nullable
foreign key with `on_delete=SET_NULL`, hence `Option Nat`. -/
structure CarbonLog where
  user : Nat
  submission : Option Nat
  carbon_saved_kg : ℚ
  points_earned : ℤ
deriving DecidableEq, Repr

/-- The two cached aggregate fields of a `UserProfile` row (`users/models.py`). -/
structure UserProfile where
  total_points : ℤ
  total_carbon_saved : ℚ
deriving DecidableEq, Repr

/-- One `DynamicChallenge` row (`ai_features/models.py`), restricted to the
fields read or written by `update_challenge_progress_api`. -/
structure DynamicChallenge where
  user : Nat
  target_value : ℤ
  reward_points : ℤ
  current_progress : ℤ
  is_completed : Bool
deriving DecidableEq, Repr

/-- Association-list lookup by primary key (Django `objects.get(id=...)`). -/
def findById {β : Type} : List (Nat × β) → Nat → Option β
  | [], _ => none
  | p :: rest, id => if p.1 = id then some p.2 else findById rest id

/-- Persist a row under its primary key (Django `save()` on a fetched row). -/
def setById {β : Type} (l : List (Nat × β)) (id : Nat) (v : β) : List (Nat × β) :=
  l.map (fun p => if p.1 = id then (id, v) else p)

/-- Pointwise update of a function-backed table. -/
def upd {α : Type} (f : Nat → α) (k : Nat) (v : α) : Nat → α :=
  fun n => if n = k then v else f n

/-- The persisted database state visible to the core: submission and challenge
tables keyed by primary key, the append-only `CarbonLog` table, per-user
profiles and badges, and the two read-only external counters used by special
badges (event participations and team membership). -/
structure DB where
  submissions : List (Nat × ActivitySubmission)
  logs : List CarbonLog
  profiles : Nat → UserProfile
  badges : List (Nat × String)
  challenges : List (Nat × DynamicChallenge)
  events_attended : Nat → Nat
  hasTeam : Nat → Bool

/-- Modelled from the spec: the Django settings module defining
`CARBON_FACTORS` is not part of the source tree (only
`settings.CARBON_FACTORS.get(self.activity_type, 0)` in
`activities/models.py` refers to it).  The spec fixes the table as
TreePlantation→22.0, Recycling→1.5, CleanupDrive→0.5, AwarenessCampaign→5.0,
EnergySaving→0.85, keyed by the activity-type codes of `activities/models.py`;
the repository's own test (`activities/tests.py`) agrees with the
TreePlantation entry (5 trees → 110.0 kg). -/
def CARBON_FACTORS : String → Option ℚ
  | "TREE" => some 22
  | "RECYCLE" => some (3 / 2)
  | "CLEANUP" => some (1 / 2)
  | "AWARENESS" => some 5
  | "ENERGY_SAVING" => some (17 / 20)
  | _ => none

/-- The in-memory field mutations of `ActivitySubmission.approve`
(`activities/models.py` lines 35–41): `points_awarded = int(quantity * 10)`,
`carbon_saved_kg = quantity * CARBON_FACTORS.get(activity_type, 0)`,
`status = APPROVED`. -/
def approveCalc (sub : ActivitySubmission) : ActivitySubmission :=
  { sub with
    points_awarded := pyInt (sub.quantity * 10)
    carbon_saved_kg := sub.quantity * ((CARBON_FACTORS sub.activity_type).getD 0)
    status := Status.approved }

/-- Sum of `points_earned` over the `CarbonLog` rows of one user
(the `Sum('points_earned')` aggregate of `UserProfile.update_stats`;
Django's `None or 0` on an empty queryset coincides with the empty sum). -/
def logsPoints (logs : List CarbonLog) (u : Nat) : ℤ :=
  ((logs.filter (fun l => l.user = u)).map CarbonLog.points_earned).sum

/-- Sum of `carbon_saved_kg` over the `CarbonLog` rows of one user. -/
def logsCarbon (logs : List CarbonLog) (u : Nat) : ℚ :=
  ((logs.filter (fun l => l.user = u)).map CarbonLog.carbon_saved_kg).sum

/-- `UserProfile.update_stats` (`users/models.py` lines 99–108): recompute both
cached aggregates of user `u` from the full `CarbonLog` table and persist. -/
def update_stats (db : DB) (u : Nat) : DB :=
  { db with profiles := upd db.profiles u ⟨logsPoints db.logs u, logsCarbon db.logs u⟩ }

/-- `BadgeService._award_badge` (`users/badge_service.py` lines 84–92):
`get_or_create` on the `(user, badge_type)` pair — append the row only when it
is not already present. -/
def award_badge (badges : List (Nat × String)) (u : Nat) (bt : String) :
    List (Nat × String) :=
  if (u, bt) ∈ badges then badges else badges ++ [(u, bt)]

/-- The level-badge threshold table of `BadgeService._check_level_badges`. -/
def levelBadges : List (String × ℤ) :=
  [("BRONZE", 50), ("SILVER", 200), ("GOLD", 500), ("PLATINUM", 1000),
   ("ECO_CHAMPION", 2000)]

/-- The activity-badge table of `BadgeService._check_activity_badges`:
badge kind, activity-type code, lifetime approved-quantity threshold. -/
def activityBadges : List (String × String × ℚ) :=
  [("TREE_LOVER", "TREE", 10), ("RECYCLING_HERO", "RECYCLE", 50),
   ("CLEANUP_MASTER", "CLEANUP", 25), ("AWARENESS_ADVOCATE", "AWARENESS", 20),
   ("ENERGY_SAVER", "ENERGY_SAVING", 100)]

/-- `Sum('quantity')` over a user's APPROVED submissions of one activity type
(`BadgeService._check_activity_badges`). -/
def approvedQuantity (db : DB) (u : Nat) (at' : String) : ℚ :=
  ((db.submissions.filter (fun p =>
      p.2.user = u ∧ p.2.activity_type = at' ∧ p.2.status = Status.approved)).map
    (fun p => p.2.quantity)).sum

/-- The badge kinds `BadgeService.check_and_award_badges` attempts to award for
user `u`, in source order: level badges against the freshly recomputed
`total_points`, activity badges against lifetime approved quantities, then the
special event-participation and team badges. -/
def eligibleBadges (db : DB) (u : Nat) : List String :=
  (levelBadges.filter (fun b => b.2 ≤ (db.profiles u).total_points)).map Prod.fst
    ++ (activityBadges.filter (fun b => b.2.2 ≤ approvedQuantity db u b.2.1)).map
        Prod.fst
    ++ (if 5 ≤ db.events_attended u then ["EVENT_PARTICIPANT"] else [])
    ++ (if db.hasTeam u then ["TEAM_PLAYER"] else [])

/-- The awarding passes of `check_and_award_badges` after `update_stats` has
already run: each eligible badge is put through `_award_badge` in order. -/
def awardBadges (db : DB) (u : Nat) : DB :=
  { db with badges := (eligibleBadges db u).foldl (fun bs bt => award_badge bs u bt) db.badges }

/-- `BadgeService.check_and_award_badges` (`users/badge_service.py` lines
13–26): `update_stats` for the user, then the three badge-rule families. -/
def check_and_award_badges (db : DB) (u : Nat) : DB :=
  awardBadges (update_stats db u) u

/-- `ActivitySubmission.approve` (`activities/models.py` lines 32–54), as the
sequence of persisted effects: compute the reward fields and save the
submission, append one `CarbonLog` row, then run the badge service (which
recomputes the aggregates first).  There is no state guard in the source. -/
def approve (db : DB) (id : Nat) : DB :=
  match findById db.submissions id with
  | none => db
  | some sub =>
    let sub' := approveCalc sub
    let db1 := { db with submissions := setById db.submissions id sub' }
    let db2 := { db1 with
      logs := db1.logs ++ [⟨sub.user, some id, sub'.carbon_saved_kg, sub'.points_awarded⟩] }
    check_and_award_badges db2 sub.user

/-- `ActivitySubmission.approve` cut off after its first `k` persisted database
operations, modelling a failure injected at that point: `k = 0` fails before
`self.save()` (the in-memory field writes are lost); `k = 1` fails after the
submission save but before the `CarbonLog` append; `k = 2` fails after the
ledger append but before `update_stats`; `k = 3` fails before the badge
passes; `k ≥ 4` is the completed operation. -/
def approveUpTo (db : DB) (id : Nat) (k : Nat) : DB :=
  match findById db.submissions id with
  | none => db
  | some sub =>
    if k = 0 then db else
    let sub' := approveCalc sub
    let db1 := { db with submissions := setById db.submissions id sub' }
    if k = 1 then db1 else
    let db2 := { db1 with
      logs := db1.logs ++ [⟨sub.user, some id, sub'.carbon_saved_kg, sub'.points_awarded⟩] }
    if k = 2 then db2 else
    let db3 := update_stats db2 sub.user
    if k = 3 then db3 else
    awardBadges db3 sub.user

/-- The per-submission body of the `reject_submissions` admin action
(`activities/admin.py` lines 101–109): the action iterates
`queryset.filter(status='PENDING')`, so a non-Pending submission is untouched;
a Pending one gets `status = REJECTED` and the fixed feedback text, and is
saved.  No other table is touched. -/
def reject_submission (db : DB) (id : Nat) : DB :=
  match findById db.submissions id with
  | none => db
  | some sub =>
    if sub.status = Status.pending then
      let sub' := { sub with status := Status.rejected,
                             feedback := "Rejected by admin bulk action" }
      { db with submissions := setById db.submissions id sub' }
    else db

/-- The rejected form of a submission, as written by the admin bulk action. -/
def rejected_form (sub : ActivitySubmission) : ActivitySubmission :=
  { sub with status := Status.rejected, feedback := "Rejected by admin bulk action" }

/-- `update_challenge_progress_api` (`dashboard/views.py` lines 508–538):
`current_progress = min(progress, target_value)`; if the stored progress has
reached `target_value`, set `is_completed`, and add `reward_points` onto the
profile's `total_points` directly (no `CarbonLog` row is written).  An unknown
challenge id is a 404 with no change. -/
def update_challenge_progress (db : DB) (cid : Nat) (progress : ℤ) : DB :=
  match findById db.challenges cid with
  | none => db
  | some ch =>
    let newProg := min progress ch.target_value
    if ch.target_value ≤ newProg then
      let ch' := { ch with current_progress := newProg, is_completed := true }
      let prof := db.profiles ch.user
      let prof' := { prof with total_points := prof.total_points + ch.reward_points }
      { db with
        challenges := setById db.challenges cid ch',
        profiles := upd db.profiles ch.user prof' }
    else
      { db with
        challenges := setById db.challenges cid { ch with current_progress := newProg } }

/-- Deleting an `ActivitySubmission` row: the row leaves the submission table,
and every `CarbonLog` row referencing it has its `submission` foreign key set
to null (`on_delete=models.SET_NULL`, `activities/models.py` line 59); the
ledger row itself, with its points and carbon values, is retained. -/
def delete_submission (db : DB) (id : Nat) : DB :=
  { db with
    submissions := db.submissions.filter (fun p => ¬ p.1 = id),
    logs := db.logs.map (fun l =>
      if l.submission = some id then { l with submission := none } else l) }

/-- One ledger-affecting operation: an approval of a submission or a challenge
progress report. -/
inductive Op where
  | approveOp : Nat → Op
  | challengeOp : Nat → ℤ → Op
deriving DecidableEq, Repr

/-- Whether an operation is an approval. -/
def Op.isApproval : Op → Bool
  | Op.approveOp _ => true
  | Op.challengeOp _ _ => false

/-- Run one operation against the database. -/
def runOp (db : DB) : Op → DB
  | Op.approveOp id => approve db id
  | Op.challengeOp cid p => update_challenge_progress db cid p

/-- Run a sequence of operations. -/
def runOps (db : DB) (ops : List Op) : DB := ops.foldl runOp db

/-- The cached-aggregate invariant of the spec: every user's cached
`total_points` and `total_carbon_saved` equal the corresponding sums over that
user's `CarbonLog` rows. -/
def aggInv (db : DB) : Prop :=
  ∀ u, (db.profiles u).total_points = logsPoints db.logs u ∧
       (db.profiles u).total_carbon_saved = logsCarbon db.logs u

/-- Folding `_award_badge` over a list of badge kinds, as the evaluator does. -/
def awardFold (bs : List (Nat × String)) (u : Nat) (l : List String) :
    List (Nat × String) :=
  l.foldl (fun bs bt => award_badge bs u bt) bs

/-! ### Concrete database states used to exercise the operations -/

/-- A fresh Pending submission of user 0, as created by the submission flow
(`points_awarded=0`, `carbon_saved_kg=0.0`, empty feedback). -/
def freshSubmission (q : ℚ) (k : String) : ActivitySubmission :=
  ⟨0, k, q, Status.pending, 0, 0, ""⟩

/-- An empty database with a default (zeroed) profile for every user. -/
def baseDB : DB :=
  { submissions := []
    logs := []
    profiles := fun _ => ⟨0, 0⟩
    badges := []
    challenges := []
    events_attended := fun _ => 0
    hasTeam := fun _ => false }

/-- A database holding one Pending TreePlantation submission of quantity 1. -/
def dbOneSub : DB := { baseDB with submissions := [(0, freshSubmission 1 "TREE")] }

/-- A database holding one challenge of user 0 with `target_value=10`,
`reward_points=100`, no progress yet. -/
def dbOneChallenge : DB :=
  { baseDB with challenges := [(0, ⟨0, 10, 100, 0, false⟩)] }

/-- A database holding one ledger row that references submission 0, the
submission itself, and a profile consistent with the ledger. -/
def dbOneLog : DB :=
  { baseDB with
    submissions := [(0, ⟨0, "TREE", 1, Status.approved, 10, 22, ""⟩)]
    logs := [⟨0, some 0, 22, 10⟩] }

/-! ### Helper lemmas about the table primitives -/

lemma upd_same {α : Type} (f : Nat → α) (k : Nat) (v : α) : upd f k v k = v := by
  simp [upd]

lemma upd_ne {α : Type} (f : Nat → α) (k : Nat) (v : α) {n : Nat} (h : n ≠ k) :
    upd f k v n = f n := by
  simp [upd, h]

lemma findById_setById_same {β : Type} (l : List (Nat × β)) (id : Nat) (v : β) :
    findById (setById l id v) id = (findById l id).map (fun _ => v) := by
  induction l with
  | nil => rfl
  | cons p rest ih =>
    by_cases hp : p.1 = id
    · simp [setById, findById, hp]
    · simpa [setById, findById, hp] using ih

lemma logsPoints_append (L M : List CarbonLog) (u : Nat) :
    logsPoints (L ++ M) u = logsPoints L u + logsPoints M u := by
  simp [logsPoints, List.filter_append]

lemma logsCarbon_append (L M : List CarbonLog) (u : Nat) :
    logsCarbon (L ++ M) u = logsCarbon L u + logsCarbon M u := by
  simp [logsCarbon, List.filter_append]

lemma logsPoints_single (e : CarbonLog) (u : Nat) :
    logsPoints [e] u = if e.user = u then e.points_earned else 0 := by
  by_cases h : e.user = u <;> simp [logsPoints, h]

lemma logsCarbon_single (e : CarbonLog) (u : Nat) :
    logsCarbon [e] u = if e.user = u then e.carbon_saved_kg else 0 := by
  by_cases h : e.user = u <;> simp [logsCarbon, h]

/-! ### Structural facts about the badge service and `approve` -/

lemma check_and_award_badges_profiles (db : DB) (u : Nat) :
    (check_and_award_badges db u).profiles
      = upd db.profiles u ⟨logsPoints db.logs u, logsCarbon db.logs u⟩ := rfl

lemma check_and_award_badges_logs (db : DB) (u : Nat) :
    (check_and_award_badges db u).logs = db.logs := rfl

lemma check_and_award_badges_submissions (db : DB) (u : Nat) :
    (check_and_award_badges db u).submissions = db.submissions := rfl

/-- The one-step unfolding of `approve` when the submission is found: its net
effect is the badge service run on the database with the submission saved in
its approved form and the new ledger row appended. -/
lemma approve_of_found {db : DB} {id : Nat} {sub : ActivitySubmission}
    (h : findById db.submissions id = some sub) :
    approve db id = check_and_award_badges
      { db with
        submissions := setById db.submissions id (approveCalc sub),
        logs := db.logs ++ [⟨sub.user, some id, (approveCalc sub).carbon_saved_kg,
                             (approveCalc sub).points_awarded⟩] } sub.user := by
  unfold approve
  rw [h]

lemma approve_submissions_of_found {db : DB} {id : Nat} {sub : ActivitySubmission}
    (h : findById db.submissions id = some sub) :
    (approve db id).submissions = setById db.submissions id (approveCalc sub) := by
  rw [approve_of_found h, check_and_award_badges_submissions]

lemma approve_logs_of_found {db : DB} {id : Nat} {sub : ActivitySubmission}
    (h : findById db.submissions id = some sub) :
    (approve db id).logs
      = db.logs ++ [⟨sub.user, some id, (approveCalc sub).carbon_saved_kg,
                     (approveCalc sub).points_awarded⟩] := by
  rw [approve_of_found h, check_and_award_badges_logs]

lemma approve_none {db : DB} {id : Nat} (h : findById db.submissions id = none) :
    approve db id = db := by
  unfold approve
  rw [h]

/-- A single approval preserves the aggregate invariant: the appended ledger
row belongs to the submission's owner, whose profile is recomputed from the
full ledger by the badge service; every other profile and ledger slice is
untouched. -/
lemma approve_preserves_aggInv (db : DB) (id : Nat) (h : aggInv db) :
    aggInv (approve db id) := by
  cases hf : findById db.submissions id with
  | none => rwa [approve_none hf]
  | some sub =>
    intro u
    rw [approve_of_found hf, check_and_award_badges_profiles, check_and_award_badges_logs]
    by_cases hu : u = sub.user
    · subst hu
      rw [upd_same]
      exact ⟨rfl, rfl⟩
    · rw [upd_ne _ _ _ hu]
      have hp := (h u).1
      have hc := (h u).2
      constructor
      · simp only [logsPoints_append, logsPoints_single]
        rw [if_neg (fun he => hu (by simpa using he.symm))]
        simpa using hp
      · simp only [logsCarbon_append, logsCarbon_single]
        rw [if_neg (fun he => hu (by simpa using he.symm))]
        simpa using hc

/-! ### Badge awarding lemmas -/

lemma awardBadges_badges (db : DB) (u : Nat) :
    (awardBadges db u).badges = awardFold db.badges u (eligibleBadges db u) := rfl

lemma mem_award_badge {bs : List (Nat × String)} {m : Nat × String} (u : Nat)
    (bt : String) (h : m ∈ bs) : m ∈ award_badge bs u bt := by
  unfold award_badge
  split
  · exact h
  · exact List.mem_append_left _ h

lemma self_mem_award_badge (bs : List (Nat × String)) (u : Nat) (bt : String) :
    (u, bt) ∈ award_badge bs u bt := by
  unfold award_badge
  split
  · assumption
  · simp

lemma mem_awardFold {bs : List (Nat × String)} {m : Nat × String} (u : Nat)
    (l : List String) (h : m ∈ bs) : m ∈ awardFold bs u l := by
  induction l generalizing bs with
  | nil => exact h
  | cons bt rest ih => exact ih (mem_award_badge u bt h)

lemma all_mem_awardFold (bs : List (Nat × String)) (u : Nat) (l : List String) :
    ∀ bt ∈ l, (u, bt) ∈ awardFold bs u l := by
  induction l generalizing bs with
  | nil => intro bt hbt; cases hbt
  | cons hd rest ih =>
    intro bt hbt
    rcases List.mem_cons.mp hbt with h | h
    · subst h
      exact mem_awardFold u rest (self_mem_award_badge bs u bt)
    · exact ih (award_badge bs u hd) bt h

lemma awardFold_eq_of_mem {bs : List (Nat × String)} {u : Nat} {l : List String}
    (h : ∀ bt ∈ l, (u, bt) ∈ bs) : awardFold bs u l = bs := by
  induction l with
  | nil => rfl
  | cons hd rest ih =>
    have hhd : award_badge bs u hd = bs := by
      unfold award_badge
      rw [if_pos (h hd (List.mem_cons_self hd rest))]
    show awardFold (award_badge bs u hd) u rest = bs
    rw [hhd]
    exact ih (fun bt hbt => h bt (List.mem_cons_of_mem hd hbt))

lemma nodup_award_badge {bs : List (Nat × String)} (u : Nat) (bt : String)
    (h : bs.Nodup) : (award_badge bs u bt).Nodup := by
  unfold award_badge
  split
  · exact h
  · next hmem =>
    simp [List.nodup_append, h, hmem]

lemma nodup_awardFold {bs : List (Nat × String)} (u : Nat) (l : List String)
    (h : bs.Nodup) : (awardFold bs u l).Nodup := by
  induction l generalizing bs with
  | nil => exact h
  | cons hd rest ih => exact ih (nodup_award_badge u hd h)

/-- The badge kinds the evaluator finds eligible are unchanged by a previous
evaluator run: eligibility reads only the ledger, the submissions and the two
external counters, none of which the evaluator writes. -/
lemma update_stats_profile_self (db : DB) (u : Nat) :
    (update_stats db u).profiles u = ⟨logsPoints db.logs u, logsCarbon db.logs u⟩ := by
  unfold update_stats
  exact upd_same _ _ _

lemma eligibleBadges_stable (db : DB) (u : Nat) :
    eligibleBadges (update_stats (check_and_award_badges db u) u) u
      = eligibleBadges (update_stats db u) u := by
  unfold eligibleBadges approvedQuantity
  rw [update_stats_profile_self, update_stats_profile_self,
    check_and_award_badges_logs]
  show _ = _
  rfl

/-! ### Claim C1 -/

/-- C1 (counterexample): the claimed invariant — cached aggregates equal the
ledger sums after any sequence of approvals and challenge completions — is
false: completing a challenge (`target_value=10`, `reward_points=100`) adds
100 to `profile.total_points` while writing no `CarbonLog` row, so the cached
total (100) no longer equals the ledger sum (0). -/
theorem C1_counterexample :
    ¬ aggInv (runOps dbOneChallenge [Op.challengeOp 0 10]) := by
  intro h
  have h0 := (h 0).1
  revert h0
  with_unfolding_all decide

/-- C1 (amended): after any sequence of approvals — with no challenge
completions — the cached aggregates of every user equal the sums over that
user's `CarbonLog` rows, provided they did at the start; a challenge
completion instead adds `reward_points` to `total_points` directly with no
ledger row, breaking the equality. -/
theorem C1_amended_approvals_preserve_inv (db : DB) (ops : List Op)
    (h1 : aggInv db) (h2 : ∀ op ∈ ops, op.isApproval = true) :
    aggInv (runOps db ops) := by
  induction ops generalizing db with
  | nil => exact h1
  | cons op rest ih =>
    cases op with
    | approveOp id =>
      exact ih _ (approve_preserves_aggInv db id h1)
        (fun o ho => h2 o (List.mem_cons_of_mem _ ho))
    | challengeOp cid p =>
      have := h2 _ (List.mem_cons_self _ _)
      simp [Op.isApproval] at this

/-- C1 (witness): the amended invariant at a concrete database — one Pending
TreePlantation submission approved from a consistent initial state. -/
theorem C1_witness : aggInv (runOps dbOneSub [Op.approveOp 0]) :=
  C1_amended_approvals_preserve_inv dbOneSub [Op.approveOp 0]
    (fun _ => ⟨rfl, rfl⟩) (by decide)

/-! ### Claim C2 -/

/-- C2 (counterexample): calling `approve` a second time on an
already-Approved submission does not fail and is not side-effect free — after
approving the single Pending submission of `dbOneSub` twice, the submission is
Approved and the ledger holds two rows, not one. -/
theorem C2_counterexample :
    (findById (approve dbOneSub 0).submissions 0).map ActivitySubmission.status
        = some Status.approved
    ∧ (approve (approve dbOneSub 0) 0).logs.length = 2 := by
  constructor
  · with_unfolding_all decide
  · with_unfolding_all decide

/-- C2 (amended): `ActivitySubmission.approve` performs no state check.  A
second call on an already-Approved submission does not raise
`InvalidStateTransition`: it recomputes the same `points_awarded` and
`carbon_saved_kg` (the stored fields are unchanged, since the recomputation
depends only on quantity and activity type) but appends a second `CarbonLog`
ledger row.  Only the admin bulk action avoids this, by filtering the queryset
to Pending submissions before calling `approve`. -/
theorem C2_amended_reapprove_appends_second_log (db : DB) (id : Nat)
    (sub : ActivitySubmission) (h : findById db.submissions id = some sub) :
    findById (approve db id).submissions id = some (approveCalc sub)
    ∧ (approveCalc sub).status = Status.approved
    ∧ findById (approve (approve db id) id).submissions id = some (approveCalc sub)
    ∧ (approve (approve db id) id).logs.length = db.logs.length + 2 := by
  have h1 : findById (approve db id).submissions id = some (approveCalc sub) := by
    rw [approve_submissions_of_found h, findById_setById_same, h]
    rfl
  have hidem : approveCalc (approveCalc sub) = approveCalc sub := rfl
  refine ⟨h1, rfl, ?_, ?_⟩
  · rw [approve_submissions_of_found h1, findById_setById_same, h1]
    simp [hidem]
  · rw [approve_logs_of_found h1, approve_logs_of_found h]
    simp

/-- C2 (witness): the amended statement at the concrete one-submission
database. -/
theorem C2_witness :
    findById (approve dbOneSub 0).submissions 0
        = some (approveCalc (freshSubmission 1 "TREE"))
    ∧ (approveCalc (freshSubmission 1 "TREE")).status = Status.approved
    ∧ findById (approve (approve dbOneSub 0) 0).submissions 0
        = some (approveCalc (freshSubmission 1 "TREE"))
    ∧ (approve (approve dbOneSub 0) 0).logs.length = dbOneSub.logs.length + 2 :=
  C2_amended_reapprove_appends_second_log dbOneSub 0 (freshSubmission 1 "TREE") rfl

/-! ### Claim C3 -/

/-- C3 (counterexample): `approve` is not atomic.  A failure injected between
the ledger append and the aggregate recompute (`approveUpTo _ _ 2`) leaves the
submission persisted as Approved with the ledger row already written — not, as
claimed, in Pending state with no `CarbonLog` entry.  (A failure between the
submission save and the ledger append, `approveUpTo _ _ 1`, likewise leaves a
dangling Approved submission with no ledger row.) -/
theorem C3_counterexample :
    (findById (approveUpTo dbOneSub 0 2).submissions 0).map ActivitySubmission.status
        = some Status.approved
    ∧ (approveUpTo dbOneSub 0 2).logs.length = 1
    ∧ (findById (approveUpTo dbOneSub 0 1).submissions 0).map ActivitySubmission.status
        = some Status.approved
    ∧ (approveUpTo dbOneSub 0 1).logs = [] := by
  refine ⟨?_, ?_, ?_, ?_⟩ <;> with_unfolding_all decide

/-- C3 (amended): `approve` runs without a transaction, so each persisted step
survives a later failure.  A failure before `self.save()` leaves the database
unchanged; a failure between the submission save and the ledger append leaves
the submission Approved with the ledger unchanged; a failure between the
ledger append and the aggregate recompute leaves the Approved submission and
the new ledger row with the profiles still stale. -/
theorem C3_amended_crash_states_persist (db : DB) (id : Nat)
    (sub : ActivitySubmission) (h : findById db.submissions id = some sub) :
    approveUpTo db id 0 = db
    ∧ findById (approveUpTo db id 1).submissions id = some (approveCalc sub)
    ∧ (approveCalc sub).status = Status.approved
    ∧ (approveUpTo db id 1).logs = db.logs
    ∧ (approveUpTo db id 2).logs
        = db.logs ++ [⟨sub.user, some id, (approveCalc sub).carbon_saved_kg,
                       (approveCalc sub).points_awarded⟩]
    ∧ (approveUpTo db id 2).profiles = db.profiles := by
  have e0 : approveUpTo db id 0 = db := by
    unfold approveUpTo
    rw [h]
    rfl
  have e1 : approveUpTo db id 1
      = { db with submissions := setById db.submissions id (approveCalc sub) } := by
    unfold approveUpTo
    rw [h]
    rfl
  have e2 : approveUpTo db id 2
      = { db with
          submissions := setById db.submissions id (approveCalc sub),
          logs := db.logs ++ [⟨sub.user, some id, (approveCalc sub).carbon_saved_kg,
                               (approveCalc sub).points_awarded⟩] } := by
    unfold approveUpTo
    rw [h]
    rfl
  refine ⟨e0, ?_, rfl, ?_, ?_, ?_⟩
  · rw [e1]
    show findById (setById db.submissions id (approveCalc sub)) id = _
    rw [findById_setById_same, h]
    rfl
  · rw [e1]
  · rw [e2]
  · rw [e2]

/-- C3 (witness): the amended statement at the concrete one-submission
database. -/
theorem C3_witness :
    approveUpTo dbOneSub 0 0 = dbOneSub
    ∧ findById (approveUpTo dbOneSub 0 1).submissions 0
        = some (approveCalc (freshSubmission 1 "TREE"))
    ∧ (approveCalc (freshSubmission 1 "TREE")).status = Status.approved
    ∧ (approveUpTo dbOneSub 0 1).logs = dbOneSub.logs
    ∧ (approveUpTo dbOneSub 0 2).logs
        = dbOneSub.logs ++ [⟨(freshSubmission 1 "TREE").user, some 0,
            (approveCalc (freshSubmission 1 "TREE")).carbon_saved_kg,
            (approveCalc (freshSubmission 1 "TREE")).points_awarded⟩]
    ∧ (approveUpTo dbOneSub 0 2).profiles = dbOneSub.profiles :=
  C3_amended_crash_states_persist dbOneSub 0 (freshSubmission 1 "TREE") rfl

/-! ### Claim C4 -/

/-- C4 (counterexample): the stored progress is not clamped into
`[0, target_value]`: reporting progress `-5` against a challenge with
`target_value = 10` stores `current_progress = -5`, which is below 0. -/
theorem C4_counterexample :
    (findById (update_challenge_progress dbOneChallenge 0 (-5)).challenges 0).map
        DynamicChallenge.current_progress = some (-5)
    ∧ ¬ (0 : ℤ) ≤ -5 := by
  constructor
  · with_unfolding_all decide
  · decide

/-- What a progress report stores: the reported value clamped from above by
`target_value` only, with `is_completed` set exactly on reaching the target
and never reset. -/
lemma challenge_update_stored (db : DB) (cid : Nat) (p : ℤ)
    (ch : DynamicChallenge) (h : findById db.challenges cid = some ch) :
    ∃ ch', findById (update_challenge_progress db cid p).challenges cid = some ch'
      ∧ ch'.current_progress = min p ch.target_value
      ∧ ch'.current_progress ≤ ch.target_value
      ∧ (ch'.is_completed = true ↔
          (ch.is_completed = true ∨ ch'.current_progress = ch.target_value)) := by
  unfold update_challenge_progress
  rw [h]
  dsimp only
  by_cases hc : ch.target_value ≤ min p ch.target_value
  · rw [if_pos hc]
    refine ⟨{ ch with current_progress := min p ch.target_value, is_completed := true },
      ?_, rfl, min_le_right _ _, ?_⟩
    · show findById (setById db.challenges cid _) cid = _
      rw [findById_setById_same, h]
      rfl
    · have heq : min p ch.target_value = ch.target_value :=
        le_antisymm (min_le_right _ _) hc
      simp [heq]
  · rw [if_neg hc]
    refine ⟨{ ch with current_progress := min p ch.target_value }, ?_, rfl,
      min_le_right _ _, ?_⟩
    · show findById (setById db.challenges cid _) cid = _
      rw [findById_setById_same, h]
      rfl
    · show ch.is_completed = true ↔ _
      constructor
      · exact fun hh => Or.inl hh
      · rintro (hh | hh)
        · exact hh
        · exact absurd hh.symm.le hc

/-- C4 (amended): the stored progress is clamped from above only —
`current_progress = min(progress, target_value) ≤ target_value`, with no lower
bound at 0 (a negative report is stored as given).  `is_completed` is set
exactly when the stored progress reaches `target_value`, and once set it is
never reset by a later lower report. -/
theorem C4_amended_clamped_above_only (db : DB) (cid : Nat) (p : ℤ)
    (ch : DynamicChallenge) (h : findById db.challenges cid = some ch) :
    ∃ ch', findById (update_challenge_progress db cid p).challenges cid = some ch'
      ∧ ch'.current_progress = min p ch.target_value
      ∧ ch'.current_progress ≤ ch.target_value
      ∧ (ch'.is_completed = true ↔
          (ch.is_completed = true ∨ ch'.current_progress = ch.target_value)) :=
  challenge_update_stored db cid p ch h

/-- C4 (witness): the amended statement at the concrete challenge database,
reporting progress 7 against target 10. -/
theorem C4_witness :
    ∃ ch', findById (update_challenge_progress dbOneChallenge 0 7).challenges 0
        = some ch'
      ∧ ch'.current_progress = min 7 (10 : ℤ)
      ∧ ch'.current_progress ≤ (10 : ℤ)
      ∧ (ch'.is_completed = true ↔
          (false = true ∨ ch'.current_progress = (10 : ℤ))) :=
  C4_amended_clamped_above_only dbOneChallenge 0 7 ⟨0, 10, 100, 0, false⟩ rfl

/-! ### Claim C5 -/

/-- C5 (counterexample): on the challenge with `target_value=10`,
`reward_points=100`, reporting progress 7 and then 5 does NOT yield
`current_progress=10`, completion, and a single 100-point credit: the view
stores the reported value absolutely, so the result is `current_progress=5`,
not completed, 0 points credited.  Moreover crediting is not once-only:
reporting 10 twice credits 200. -/
theorem C5_counterexample :
    (findById (runOps dbOneChallenge
        [Op.challengeOp 0 7, Op.challengeOp 0 5]).challenges 0).map
        DynamicChallenge.current_progress = some 5
    ∧ (findById (runOps dbOneChallenge
        [Op.challengeOp 0 7, Op.challengeOp 0 5]).challenges 0).map
        DynamicChallenge.is_completed = some false
    ∧ ((runOps dbOneChallenge
        [Op.challengeOp 0 7, Op.challengeOp 0 5]).profiles 0).total_points = 0
    ∧ ((runOps dbOneChallenge
        [Op.challengeOp 0 10, Op.challengeOp 0 10]).profiles 0).total_points = 200 := by
  refine ⟨?_, ?_, ?_, ?_⟩ <;> with_unfolding_all decide

/-- C5 (amended): a progress report stores the reported value absolutely
(clamped above by `target_value`), regardless of any previous progress — so
7-then-5 ends at 5, not 10 — and every report whose value reaches
`target_value` credits `reward_points` to the profile again, with no
completed-already guard: repeated completing reports double-credit. -/
theorem C5_amended_absolute_progress_recredits (db : DB) (cid : Nat) (p : ℤ)
    (ch : DynamicChallenge) (h : findById db.challenges cid = some ch) :
    (∃ ch', findById (update_challenge_progress db cid p).challenges cid = some ch'
      ∧ ch'.current_progress = min p ch.target_value)
    ∧ (ch.target_value ≤ p →
        ((update_challenge_progress db cid p).profiles ch.user).total_points
          = (db.profiles ch.user).total_points + ch.reward_points) := by
  constructor
  · obtain ⟨ch', h1, h2, -⟩ := challenge_update_stored db cid p ch h
    exact ⟨ch', h1, h2⟩
  · intro hp
    have hc : ch.target_value ≤ min p ch.target_value := le_min hp (le_refl _)
    unfold update_challenge_progress
    rw [h]
    dsimp only
    rw [if_pos hc]
    show (upd db.profiles ch.user _ ch.user).total_points = _
    rw [upd_same]

/-- C5 (witness): the amended statement at the concrete challenge database
with a completing report of 10. -/
theorem C5_witness :
    ((∃ ch', findById (update_challenge_progress dbOneChallenge 0 10).challenges 0
        = some ch' ∧ ch'.current_progress = min 10 (10 : ℤ))
    ∧ ((10 : ℤ) ≤ 10 →
        ((update_challenge_progress dbOneChallenge 0 10).profiles 0).total_points
          = ((dbOneChallenge.profiles 0).total_points + 100))) :=
  C5_amended_absolute_progress_recredits dbOneChallenge 0 10 ⟨0, 10, 100, 0, false⟩ rfl

/-! ### Claim C6 -/

/-- C6: on approval of a submission with positive quantity, the points awarded
are `floor(quantity * 10)` (Python `int` truncation coincides with floor for a
nonnegative argument), and the value is independent of the activity kind. -/
theorem C6_points_floor_quantity_times_ten (sub : ActivitySubmission)
    (h : 0 < sub.quantity) :
    (approveCalc sub).points_awarded = ⌊sub.quantity * 10⌋
    ∧ ∀ k : String, (approveCalc { sub with activity_type := k }).points_awarded
        = (approveCalc sub).points_awarded := by
  constructor
  · show pyInt (sub.quantity * 10) = _
    unfold pyInt
    rw [if_pos (le_of_lt (mul_pos h (by norm_num)))]
    rw [Rat.floor_def]
    exact Rat.floor_def' _
  · intro k
    rfl

/-- C6 (witness): a TreePlantation submission of quantity 5 is awarded
`⌊5 * 10⌋ = 50` points. -/
theorem C6_witness :
    (approveCalc (freshSubmission 5 "TREE")).points_awarded = ⌊(5 : ℚ) * 10⌋
    ∧ (approveCalc (freshSubmission 5 "TREE")).points_awarded = 50 := by
  have h := (C6_points_floor_quantity_times_ten (freshSubmission 5 "TREE")
    (by norm_num [freshSubmission])).1
  refine ⟨h, ?_⟩
  rw [h]
  norm_num [freshSubmission]

/-! ### Claim C7 -/

/-- C7: on approval, `carbon_saved_kg` is the quantity times the static
per-kind coefficient, with the table TreePlantation→22.0, Recycling→1.5,
CleanupDrive→0.5, AwarenessCampaign→5.0, EnergySaving→0.85, and an activity
kind outside the enumerated codes gets coefficient 0 — carbon 0.0, not a
failure. -/
theorem C7_carbon_coefficient_table (sub : ActivitySubmission) :
    (approveCalc sub).carbon_saved_kg
        = sub.quantity * ((CARBON_FACTORS sub.activity_type).getD 0)
    ∧ CARBON_FACTORS "TREE" = some 22
    ∧ CARBON_FACTORS "RECYCLE" = some (3 / 2)
    ∧ CARBON_FACTORS "CLEANUP" = some (1 / 2)
    ∧ CARBON_FACTORS "AWARENESS" = some 5
    ∧ CARBON_FACTORS "ENERGY_SAVING" = some (17 / 20)
    ∧ (sub.activity_type ∉
        ["TREE", "RECYCLE", "CLEANUP", "AWARENESS", "ENERGY_SAVING"] →
        (approveCalc sub).carbon_saved_kg = 0) := by
  refine ⟨rfl, rfl, rfl, rfl, rfl, rfl, ?_⟩
  intro hk
  simp only [List.mem_cons, List.not_mem_nil, or_false, not_or] at hk
  obtain ⟨h1, h2, h3, h4, h5⟩ := hk
  show sub.quantity * ((CARBON_FACTORS sub.activity_type).getD 0) = 0
  rw [show CARBON_FACTORS sub.activity_type = none from by
    simp [CARBON_FACTORS, h1, h2, h3, h4, h5]]
  simp

/-- C7 (witness): a submission with the non-enumerated kind "SOLAR" is
approved with carbon 0. -/
theorem C7_witness :
    (approveCalc (freshSubmission 3 "SOLAR")).carbon_saved_kg = 0 :=
  (C7_carbon_coefficient_table (freshSubmission 3 "SOLAR")).2.2.2.2.2.2
    (by decide)

/-! ### Claim C8 -/

/-- C8: badge awarding is idempotent and at-most-once per (user, badge kind):
running the evaluator twice in a row on an unchanged ledger awards nothing new
the second time (the badge table after the second run equals the table after
the first), and if the badge table had no duplicate (user, kind) rows before a
run, it has none after — `_award_badge`'s get_or_create and the
`unique_together ('user', 'badge_type')` constraint keep every badge unique no
matter how many times the evaluator runs. -/
theorem C8_badge_awarding_idempotent (db : DB) (u : Nat) (h : db.badges.Nodup) :
    (check_and_award_badges (check_and_award_badges db u) u).badges
        = (check_and_award_badges db u).badges
    ∧ (check_and_award_badges db u).badges.Nodup := by
  have hb1 : (check_and_award_badges db u).badges
      = awardFold db.badges u (eligibleBadges (update_stats db u) u) := rfl
  constructor
  · have hb2 : (check_and_award_badges (check_and_award_badges db u) u).badges
        = awardFold (check_and_award_badges db u).badges u
            (eligibleBadges (update_stats (check_and_award_badges db u) u) u) := rfl
    rw [hb2, eligibleBadges_stable]
    apply awardFold_eq_of_mem
    intro bt hbt
    rw [hb1]
    exact all_mem_awardFold db.badges u _ bt hbt
  · rw [hb1]
    exact nodup_awardFold u _ h

/-- C8 (witness): the statement at the concrete one-ledger-row database. -/
theorem C8_witness :
    (check_and_award_badges (check_and_award_badges dbOneLog 0) 0).badges
        = (check_and_award_badges dbOneLog 0).badges
    ∧ (check_and_award_badges dbOneLog 0).badges.Nodup :=
  C8_badge_awarding_idempotent dbOneLog 0 (by decide)

/-! ### Claim C9 -/

/-- C9: rejecting a Pending submission (the admin bulk action body) stores
state Rejected together with the rejection feedback text, leaves
`points_awarded` at 0, and writes to no other table: the ledger and the
profiles are unchanged (no reward). -/
theorem C9_reject_no_reward (db : DB) (id : Nat) (sub : ActivitySubmission)
    (h : findById db.submissions id = some sub) (hp : sub.status = Status.pending)
    (h0 : sub.points_awarded = 0) :
    findById (reject_submission db id).submissions id = some (rejected_form sub)
    ∧ (rejected_form sub).status = Status.rejected
    ∧ (rejected_form sub).feedback = "Rejected by admin bulk action"
    ∧ (rejected_form sub).points_awarded = 0
    ∧ (reject_submission db id).logs = db.logs
    ∧ (reject_submission db id).profiles = db.profiles := by
  unfold reject_submission
  rw [h]
  dsimp only
  rw [if_pos hp]
  refine ⟨?_, rfl, rfl, h0, rfl, rfl⟩
  rw [findById_setById_same, h]
  rfl

/-- C9 (witness): the statement at the concrete Pending submission, which ends
Rejected with feedback stored, zero points, and no ledger row. -/
theorem C9_witness :
    findById (reject_submission dbOneSub 0).submissions 0
        = some (rejected_form (freshSubmission 1 "TREE"))
    ∧ (rejected_form (freshSubmission 1 "TREE")).status = Status.rejected
    ∧ (rejected_form (freshSubmission 1 "TREE")).feedback
        = "Rejected by admin bulk action"
    ∧ (rejected_form (freshSubmission 1 "TREE")).points_awarded = 0
    ∧ (reject_submission dbOneSub 0).logs = dbOneSub.logs
    ∧ (reject_submission dbOneSub 0).profiles = dbOneSub.profiles :=
  C9_reject_no_reward dbOneSub 0 (freshSubmission 1 "TREE") rfl rfl rfl

/-! ### Claim C10 -/

lemma logsPoints_cons (e : CarbonLog) (t : List CarbonLog) (u : Nat) :
    logsPoints (e :: t) u
      = (if e.user = u then e.points_earned else 0) + logsPoints t u := by
  by_cases h : e.user = u <;> simp [logsPoints, List.filter_cons, h]

lemma logsCarbon_cons (e : CarbonLog) (t : List CarbonLog) (u : Nat) :
    logsCarbon (e :: t) u
      = (if e.user = u then e.carbon_saved_kg else 0) + logsCarbon t u := by
  by_cases h : e.user = u <;> simp [logsCarbon, List.filter_cons, h]

lemma delLogs_triple (L : List CarbonLog) (id : Nat) :
    ((L.map (fun l => if l.submission = some id then { l with submission := none }
        else l)).map (fun l => (l.user, l.points_earned, l.carbon_saved_kg)))
      = L.map (fun l => (l.user, l.points_earned, l.carbon_saved_kg)) := by
  induction L with
  | nil => rfl
  | cons e t ih => by_cases he : e.submission = some id <;> simp [he, ih]

lemma delLogs_points (L : List CarbonLog) (id u : Nat) :
    logsPoints (L.map (fun l => if l.submission = some id then
        { l with submission := none } else l)) u = logsPoints L u := by
  induction L with
  | nil => rfl
  | cons e t ih => by_cases he : e.submission = some id <;>
      simp [logsPoints_cons, he, ih]

lemma delLogs_carbon (L : List CarbonLog) (id u : Nat) :
    logsCarbon (L.map (fun l => if l.submission = some id then
        { l with submission := none } else l)) u = logsCarbon L u := by
  induction L with
  | nil => rfl
  | cons e t ih => by_cases he : e.submission = some id <;>
      simp [logsCarbon_cons, he, ih]

lemma delLogs_no_ref (L : List CarbonLog) (id : Nat) :
    ∀ l ∈ L.map (fun l => if l.submission = some id then
        { l with submission := none } else l), l.submission ≠ some id := by
  intro l hl
  rcases List.mem_map.mp hl with ⟨a, _, rfl⟩
  by_cases he : a.submission = some id
  · simp [he]
  · rw [if_neg he]
    exact he

/-- C10: deleting an `ActivitySubmission` keeps its `CarbonLog` row
(`on_delete=SET_NULL`): every ledger row survives with its user, points and
carbon values intact; rows that referenced the deleted submission now carry a
null back-reference; and every subsequent aggregate recomputation
(`update_stats`) still counts the surviving rows — it yields the same totals
as before the deletion. -/
theorem C10_delete_keeps_ledger_rows (db : DB) (id u : Nat) :
    ((delete_submission db id).logs.map
        (fun l => (l.user, l.points_earned, l.carbon_saved_kg)))
      = db.logs.map (fun l => (l.user, l.points_earned, l.carbon_saved_kg))
    ∧ (∀ l ∈ (delete_submission db id).logs, l.submission ≠ some id)
    ∧ ((update_stats (delete_submission db id) u).profiles u).total_points
        = ((update_stats db u).profiles u).total_points
    ∧ ((update_stats (delete_submission db id) u).profiles u).total_carbon_saved
        = ((update_stats db u).profiles u).total_carbon_saved := by
  refine ⟨delLogs_triple db.logs id, delLogs_no_ref db.logs id, ?_, ?_⟩
  · rw [update_stats_profile_self, update_stats_profile_self]
    exact delLogs_points db.logs id u
  · rw [update_stats_profile_self, update_stats_profile_self]
    exact delLogs_carbon db.logs id u

/-- C10 (witness): the statement at the concrete database whose single ledger
row references the deleted submission 0. -/
theorem C10_witness :
    ((delete_submission dbOneLog 0).logs.map
        (fun l => (l.user, l.points_earned, l.carbon_saved_kg)))
      = dbOneLog.logs.map (fun l => (l.user, l.points_earned, l.carbon_saved_kg))
    ∧ (∀ l ∈ (delete_submission dbOneLog 0).logs, l.submission ≠ some 0)
    ∧ ((update_stats (delete_submission dbOneLog 0) 0).profiles 0).total_points
        = ((update_stats dbOneLog 0).profiles 0).total_points
    ∧ ((update_stats (delete_submission dbOneLog 0) 0).profiles 0).total_carbon_saved
        = ((update_stats dbOneLog 0).profiles 0).total_carbon_saved :=
  C10_delete_keeps_ledger_rows dbOneLog 0 0

end EcoTracker
